import Mathlib

/- Verification development for the Python-FTP-File-Ingestion job.
   Shallow embedding of src/python_ingestion_job/config.py and
   src/python_ingestion_job/python_glue_injestion_job.py: pure helpers become
   Lean functions, the connection handling becomes explicit state passing, the
   orchestration run becomes a function from an environment of external
   outcomes to the trace of observable events. -/

namespace FTP

/-- A Python exception value, identified by its message. -/
inductive PyErr where
  | err (msg : String)
deriving DecidableEq, Repr

/-- Whether an Except value is a success (the Python call did not raise). -/
def isOk : Except PyErr Unit → Bool
  | Except.ok _ => true
  | Except.error _ => false

/-- config.py: MB = 1024 ** 2. -/
def MB : Nat := 1024 ^ 2

/-- config.py: GB = 1024 ** 3. -/
def GB : Nat := 1024 ^ 3

/-- config.py: MULTIPART_THRESHOLD = 100 * MB. -/
def MULTIPART_THRESHOLD : Nat := 100 * MB

/-- config.py: MULTIPART_CHUNKSIZE = 20 * MB. -/
def MULTIPART_CHUNKSIZE : Nat := 20 * MB

/-- config.py: MAX_CUNCURRENCY = 10 (sic). -/
def MAX_CUNCURRENCY : Nat := 10

/-- config.py: USER_THREADS = True (sic). -/
def USER_THREADS : Bool := true

/-- Python str.split with an explicit one-character separator: splits the
character list at every separator occurrence, keeping empty pieces, and always
returns a nonempty list (the empty string splits to [""]). -/
def pySplitAux (sep : Char) : List Char → List Char → List String
  | [], acc => [String.mk acc.reverse]
  | c :: cs, acc =>
    if c = sep then String.mk acc.reverse :: pySplitAux sep cs []
    else pySplitAux sep cs (c :: acc)

/-- Python s.split(sep) for a one-character separator sep. -/
def pySplit (s : String) (sep : Char) : List String :=
  pySplitAux sep s.data []

/-- The fields of datetime.now() that create_s3_partition reads. -/
structure PyDateTime where
  year : Nat
  month : Nat
  day : Nat
  hour : Nat
deriving DecidableEq, Repr

/-- FTPIngestion.create_s3_partition (python_glue_injestion_job.py 124-141):
parent_dir is ftp_directory_path.split("/")[-1]; the partition string is
parent_dir + "/year = " + str(year) + "/month = " + str(month) +
"/day = " + str(day) + "/hour = " + str(hour) + "/". The ambient
datetime.now() is passed explicitly. -/
def create_s3_partition (ftp_directory_path : String) (now : PyDateTime) : String :=
  let parent_dir := (pySplit ftp_directory_path '/').getLastD ""
  parent_dir ++ "/year = " ++ toString now.year ++ "/month = " ++
    toString now.month ++ "/day = " ++ toString now.day ++ "/hour = " ++
    toString now.hour ++ "/"

/-- PartitionNamer computeKey as the spec words it: the last segment of the
source directory path followed by the year, month, day and hour fields, each
field written with literal spaces around the equals sign, values unpadded,
segments separated by slashes with a trailing slash. -/
def spec_computeKey (sourceDirPath : String) (now : PyDateTime) : String :=
  String.intercalate "/"
    [(pySplit sourceDirPath '/').getLastD "",
     "year = " ++ toString now.year,
     "month = " ++ toString now.month,
     "day = " ++ toString now.day,
     "hour = " ++ toString now.hour,
     ""]

/-- The TransferConfig built in s3_upload_file_multipart
(python_glue_injestion_job.py 161-163). -/
structure TransferConfigM where
  multipart_threshold : Nat
  multipart_chunksize : Nat
  max_concurrency : Nat
  use_threads : Bool
deriving DecidableEq, Repr

/-- The TransferConfig the job passes to boto3, from the config.py values. -/
def jobTransferConfig : TransferConfigM :=
  ⟨MULTIPART_THRESHOLD, MULTIPART_CHUNKSIZE, MAX_CUNCURRENCY, USER_THREADS⟩

/-- The per-file transfer mode. -/
inductive UploadMode where
  | SinglePart
  | MultiPart (chunkSize : Nat) (maxConcurrency : Nat) (parallel : Bool)
deriving DecidableEq, Repr

/-- Modelled from the spec: the single-part versus multi-part decision is made
inside the storage backend (the boto3 TransferConfig machinery), whose code is
not part of this repository; the repository only builds the TransferConfig and
passes it. Spec rule: byteLength > config.thresholdBytes means MultiPart
(carrying chunk size, max concurrency, parallel flag), else SinglePart. -/
def chooseMode (byteLength : Nat) (config : TransferConfigM) : UploadMode :=
  if byteLength > config.multipart_threshold then
    UploadMode.MultiPart config.multipart_chunksize config.max_concurrency config.use_threads
  else UploadMode.SinglePart

/-- FTPIngestion.s3_upload_file_multipart (python_glue_injestion_job.py
143-170): the body is one try block around the backend upload call; on success
it returns True, any exception is printed and False is returned. The outcome
of the backend call is the argument. -/
def s3_upload_file_multipart (uploadResult : Except PyErr Unit) : Bool :=
  match uploadResult with
  | Except.ok _ => true
  | Except.error _ => false

/-- The shell command string built by FTPIngestion.move_files_to_processed
(python_glue_injestion_job.py 113-120): "mv " + src + " " + dest where
src = ftp_directory_path + "/" + name and dest = ftp_processed_path + name. -/
def move_command (ftp_directory_path ftp_processed_path source_file_name : String) : String :=
  "mv " ++ (ftp_directory_path ++ "/" ++ source_file_name) ++ " " ++
    (ftp_processed_path ++ source_file_name)

/-- The connection fields of the FTPIngestion object: ssh_client and
sftp_client start as the config.py values None / None, ssh_ok and sftp_ok as
False / False; a client field is some () once a client object was assigned. -/
structure SessionState where
  ssh_client : Option Unit
  sftp_client : Option Unit
  ssh_ok : Bool
  sftp_ok : Bool
deriving DecidableEq, Repr

/-- The state right after FTPIngestion.__init__ (config.py: SSH_CLIENT = None,
SFTP_CLIENT = None, SSH_OK = False, SFTP_OK = False). -/
def initState : SessionState := ⟨none, none, false, false⟩

/-- Outcomes of the two connection-establishing external calls: whether
paramiko connect succeeds and whether open_sftp succeeds. -/
structure ConnEnv where
  ssh_connect_ok : Bool
  open_sftp_ok : Bool
deriving DecidableEq, Repr

/-- FTPIngestion.create_ssh_connection (python_glue_injestion_job.py 50-81):
assigns a fresh SSHClient to self.ssh_client, then connects; on success
ssh_ok := True, on any exception ssh_ok := False; returns self.ssh_ok. -/
def create_ssh_connection (e : ConnEnv) (s : SessionState) : SessionState × Bool :=
  if e.ssh_connect_ok then
    (⟨some (), s.sftp_client, true, s.sftp_ok⟩, true)
  else
    (⟨some (), s.sftp_client, false, s.sftp_ok⟩, false)

/-- FTPIngestion.create_sftp_connection (python_glue_injestion_job.py 83-103):
if create_ssh_connection() then sftp_client := ssh_client.open_sftp() and
sftp_ok := True; an exception from open_sftp sets sftp_ok := False and leaves
sftp_client unassigned; if the ssh step failed only a message is printed.
Returns self.sftp_ok. -/
def create_sftp_connection (e : ConnEnv) (s : SessionState) : SessionState × Bool :=
  let r := create_ssh_connection e s
  if r.2 then
    if e.open_sftp_ok then
      (⟨r.1.ssh_client, some (), r.1.ssh_ok, true⟩, true)
    else
      (⟨r.1.ssh_client, r.1.sftp_client, r.1.ssh_ok, false⟩, false)
  else (r.1, r.1.sftp_ok)

/-- FTPIngestion.close_connections (python_glue_injestion_job.py 206-212):
self.sftp_client.close() then self.ssh_client.close(), with no try block.
Calling .close() on None raises AttributeError; close() on an assigned
paramiko client returns normally. -/
def close_connections (s : SessionState) : Except PyErr Unit :=
  match s.sftp_client with
  | none => Except.error (PyErr.err "AttributeError: NoneType object has no attribute close")
  | some _ =>
    match s.ssh_client with
    | none => Except.error (PyErr.err "AttributeError: NoneType object has no attribute close")
    | some _ => Except.ok ()

/-- The environment of one run: the outcomes of every external call the run
can make, plus the run parameters read from config. -/
structure Env where
  conn : ConnEnv
  listdir_ok : Bool
  files : List String
  stream_open_ok : String → Bool
  upload_ok : String → Bool
  move_ok : String → Bool
  ftp_directory_path : String
  ftp_processed_path : String
  now : PyDateTime

/-- Observable events of one run. -/
inductive Event where
  | listed (files : List String)
  | partitionComputed (key : String)
  | streamOpenFailed (file : String)
  | uploadAttempt (key : String) (file : String) (ok : Bool)
  | moveAttempt (file : String) (cmd : String) (ok : Bool)
  | exceptionCaught
  | close (ok : Bool)
deriving DecidableEq, Repr

def isClose : Event → Bool
  | Event.close _ => true
  | _ => false

def isUploadAttempt : Event → Bool
  | Event.uploadAttempt _ _ _ => true
  | _ => false

def isMoveAttempt : Event → Bool
  | Event.moveAttempt _ _ _ => true
  | _ => false

def isPartitionComputed : Event → Bool
  | Event.partitionComputed _ => true
  | _ => false

/-- Whether an event is an upload attempt of the given file. -/
def isUploadOf (f : String) : Event → Bool
  | Event.uploadAttempt _ g _ => g == f
  | _ => false

/-- The for loop over files_to_upload (python_glue_injestion_job.py 186-191):
each iteration opens the remote file — an exception there propagates out of
the loop (third component true) — then calls s3_upload_file_multipart on it
with target s3_partition + ftp_file, appending the file to files_to_move when
it returned True. Yields the events, the accumulated files_to_move, and
whether the loop was aborted by an uncaught exception. -/
def uploadLoop (env : Env) (partition : String) : List String → List Event × List String × Bool
  | [] => ([], [], false)
  | f :: fs =>
    if env.stream_open_ok f then
      let ok := s3_upload_file_multipart
        (if env.upload_ok f then Except.ok () else Except.error (PyErr.err "upload failed"))
      let rest := uploadLoop env partition fs
      (Event.uploadAttempt (partition ++ f) f ok :: rest.1,
       (if ok then f :: rest.2.1 else rest.2.1),
       rest.2.2)
    else ([Event.streamOpenFailed f], [], true)

/-- FTPIngestion.move_files_to_processed (python_glue_injestion_job.py
105-122): builds the mv command and runs it through exec_command inside a try
block, so a failure is printed and absorbed; the call always returns. -/
def move_files_to_processed (env : Env) (source_file_name : String) : Event :=
  Event.moveAttempt source_file_name
    (move_command env.ftp_directory_path env.ftp_processed_path source_file_name)
    (env.move_ok source_file_name)

/-- The partition key this run would compute (python_glue_injestion_job.py
183). -/
def partitionOf (env : Env) : String :=
  create_s3_partition env.ftp_directory_path env.now

/-- FTPIngestion.initiate_ingestion (python_glue_injestion_job.py 172-204):
inside a try block: if create_sftp_connection() then chdir + listdir (which
may raise), create_s3_partition once, run the upload loop, then — unless an
exception aborted the loop — move every file of files_to_move; any exception
of the try block is caught and printed. After the try block,
close_connections() is called unconditionally. -/
def initiate_ingestion (env : Env) : List Event :=
  let cs := create_sftp_connection env.conn initState
  let body :=
    if cs.2 then
      if env.listdir_ok then
        let files := env.files
        let s3_partition := create_s3_partition env.ftp_directory_path env.now
        let r := uploadLoop env s3_partition files
        Event.listed files :: Event.partitionComputed s3_partition ::
          (r.1 ++ (if r.2.2 then [Event.exceptionCaught]
                   else r.2.1.map (move_files_to_processed env)))
      else [Event.exceptionCaught]
    else []
  body ++ [Event.close (isOk (close_connections cs.1))]

/-! ### Helper lemmas -/

/-- Merging a string-literal split: prepend under associativity. -/
theorem append_merge (a b c t : String) (h : a ++ b = c) : a ++ (b ++ t) = c ++ t := by
  rw [← String.append_assoc, h]

/-- The try block of s3_upload_file_multipart turns the backend outcome
boolean into the returned boolean. -/
theorem s3_upload_of_if (b : Bool) (e : PyErr) :
    s3_upload_file_multipart (if b then Except.ok () else Except.error e) = b := by
  cases b <;> rfl

/-- Events of the upload loop are never move, close or partition events. -/
theorem uploadLoop_event_kinds (env : Env) (p : String) (l : List String) :
    ∀ e ∈ (uploadLoop env p l).1,
      isMoveAttempt e = false ∧ isClose e = false ∧ isPartitionComputed e = false := by
  induction l with
  | nil => intro e he; simp [uploadLoop] at he
  | cons f fs ih =>
    intro e he
    cases hs : env.stream_open_ok f <;> simp [uploadLoop, hs] at he
    · subst he; exact ⟨rfl, rfl, rfl⟩
    · rcases he with h | h
      · subst h; exact ⟨rfl, rfl, rfl⟩
      · exact ih e h

/-- Every upload event of the loop targets the shared partition prefix
concatenated with the file name, reports the backend outcome for that file,
and belongs to a listed file. -/
theorem uploadLoop_upload_mem (env : Env) (p : String) (l : List String)
    (k f : String) (ok : Bool)
    (h : Event.uploadAttempt k f ok ∈ (uploadLoop env p l).1) :
    k = p ++ f ∧ ok = env.upload_ok f ∧ f ∈ l := by
  induction l with
  | nil => simp [uploadLoop] at h
  | cons g gs ih =>
    cases hs : env.stream_open_ok g <;> simp [uploadLoop, hs, s3_upload_of_if] at h
    · rcases h with ⟨hk, hf, hok⟩ | h
      · subst hf; exact ⟨hk, hok, List.mem_cons_self _ _⟩
      · obtain ⟨h1, h2, h3⟩ := ih h
        exact ⟨h1, h2, List.mem_cons_of_mem _ h3⟩

/-- A file on the move-list has a successful upload event in the loop. -/
theorem uploadLoop_move_mem (env : Env) (p : String) (l : List String)
    (f : String) (h : f ∈ (uploadLoop env p l).2.1) :
    Event.uploadAttempt (p ++ f) f true ∈ (uploadLoop env p l).1 := by
  induction l with
  | nil => simp [uploadLoop] at h
  | cons g gs ih =>
    cases hs : env.stream_open_ok g <;>
      simp [uploadLoop, hs, s3_upload_of_if] at h ⊢
    cases hu : env.upload_ok g <;> simp [hu] at h ⊢
    · exact ih h
    · rcases h with rfl | h
      · exact Or.inl ⟨rfl, rfl⟩
      · exact Or.inr (ih h)

/-- When every stream open succeeds, the loop is not aborted and produces one
upload event per listed file, in order. -/
theorem uploadLoop_all_streams_ok (env : Env) (p : String) (l : List String)
    (h : ∀ g ∈ l, env.stream_open_ok g = true) :
    (uploadLoop env p l).1 =
      l.map (fun f => Event.uploadAttempt (p ++ f) f (env.upload_ok f))
    ∧ (uploadLoop env p l).2.2 = false := by
  induction l with
  | nil => simp [uploadLoop]
  | cons g gs ih =>
    have hg : env.stream_open_ok g = true := h g (List.mem_cons_self _ _)
    have hgs : ∀ x ∈ gs, env.stream_open_ok x = true :=
      fun x hx => h x (List.mem_cons_of_mem _ hx)
    obtain ⟨h1, h2⟩ := ih hgs
    simp [uploadLoop, hg, s3_upload_of_if, h1, h2]

/-- The upload loop has no close events (countP form). -/
theorem uploadLoop_countP_isClose (env : Env) (p : String) (l : List String) :
    (uploadLoop env p l).1.countP isClose = 0 :=
  List.countP_eq_zero.mpr fun e he => by
    simp [(uploadLoop_event_kinds env p l e he).2.1]

/-- The upload loop has no partition events (countP form). -/
theorem uploadLoop_countP_isPartition (env : Env) (p : String) (l : List String) :
    (uploadLoop env p l).1.countP isPartitionComputed = 0 :=
  List.countP_eq_zero.mpr fun e he => by
    simp [(uploadLoop_event_kinds env p l e he).2.2]

/-- Unfolded shape of the run trace: a body depending on the connection,
listing and loop outcomes, followed by exactly one close event. -/
theorem initiate_ingestion_eq (env : Env) :
    initiate_ingestion env =
      (if (create_sftp_connection env.conn initState).2 then
        (if env.listdir_ok then
          Event.listed env.files :: Event.partitionComputed (partitionOf env) ::
            ((uploadLoop env (partitionOf env) env.files).1 ++
             (if (uploadLoop env (partitionOf env) env.files).2.2 then [Event.exceptionCaught]
              else (uploadLoop env (partitionOf env) env.files).2.1.map
                (move_files_to_processed env)))
         else [Event.exceptionCaught])
       else [])
      ++ [Event.close (isOk (close_connections (create_sftp_connection env.conn initState).1))] :=
  rfl

/-- When create_sftp_connection returns True the session is fully open. -/
theorem create_sftp_success_state (e : ConnEnv)
    (h : (create_sftp_connection e initState).2 = true) :
    (create_sftp_connection e initState).1 = ⟨some (), some (), true, true⟩ := by
  cases hs : e.ssh_connect_ok <;> cases ho : e.open_sftp_ok <;>
    simp [create_sftp_connection, create_ssh_connection, initState, hs, ho] at h ⊢

/-- When create_sftp_connection returns False the SFTP client was never
assigned: it is still the initial None. -/
theorem create_sftp_failure_state (e : ConnEnv)
    (h : (create_sftp_connection e initState).2 = false) :
    (create_sftp_connection e initState).1.sftp_client = none := by
  cases hs : e.ssh_connect_ok <;> cases ho : e.open_sftp_ok <;>
    simp [create_sftp_connection, create_ssh_connection, initState, hs, ho] at h ⊢

/-- Closing with an unassigned SFTP client raises AttributeError. -/
theorem close_connections_of_sftp_none (s : SessionState) (h : s.sftp_client = none) :
    close_connections s =
      Except.error (PyErr.err "AttributeError: NoneType object has no attribute close") := by
  simp [close_connections, h]

/-- A predicate that rejects every produced move event counts zero on the
mapped move list. -/
theorem countP_map_moves (env : Env) (l : List String) (p : Event → Bool)
    (hp : ∀ f, p (move_files_to_processed env f) = false) :
    (l.map (move_files_to_processed env)).countP p = 0 :=
  List.countP_eq_zero.mpr fun e he => by
    obtain ⟨f, _, rfl⟩ := List.mem_map.mp he
    simp [hp]

/-! ### Shared concrete environments -/

/-- The run timestamp used by the concrete runs below. -/
def baseNow : PyDateTime := ⟨2024, 5, 3, 13⟩

/-- A fully successful run over two files. -/
def envAllOk : Env :=
  ⟨⟨true, true⟩, true, ["a.csv", "b.bin"], fun _ => true, fun _ => true, fun _ => true,
   "/data/exports", "/data/processed/", baseNow⟩

/-- A run whose SSH connection fails. -/
def envOpenFail : Env :=
  ⟨⟨false, true⟩, true, ["a.csv"], fun _ => true, fun _ => true, fun _ => true,
   "/data/exports", "/data/processed/", baseNow⟩

/-- A run where SSH comes up but the SFTP channel does not. -/
def envSftpFail : Env :=
  ⟨⟨true, false⟩, true, ["a.csv"], fun _ => true, fun _ => true, fun _ => true,
   "/data/exports", "/data/processed/", baseNow⟩

/-- A run where opening the read stream of the first file raises. -/
def envStreamFail : Env :=
  ⟨⟨true, true⟩, true, ["a.csv", "b.bin"], fun f => !(f == "a.csv"), fun _ => true,
   fun _ => true, "/data/exports", "/data/processed/", baseNow⟩

/-- A run where the backend upload of the first file fails. -/
def envUploadFail : Env :=
  ⟨⟨true, true⟩, true, ["a.csv", "b.bin"], fun _ => true, fun f => !(f == "a.csv"),
   fun _ => true, "/data/exports", "/data/processed/", baseNow⟩

/-- A run where the move of the first uploaded file fails. -/
def envMoveFail : Env :=
  ⟨⟨true, true⟩, true, ["a.csv", "b.bin"], fun _ => true, fun _ => true,
   fun f => !(f == "a.csv"), "/data/exports", "/data/processed/", baseNow⟩

/-! ### Where each event kind can come from -/

/-- Any upload event of the trace was produced by the upload loop. -/
theorem mem_upload_in_trace (env : Env) (k f : String) (ok : Bool)
    (h : Event.uploadAttempt k f ok ∈ initiate_ingestion env) :
    Event.uploadAttempt k f ok ∈ (uploadLoop env (partitionOf env) env.files).1 := by
  rw [initiate_ingestion_eq] at h
  cases hc : (create_sftp_connection env.conn initState).2 <;> rw [hc] at h
  · simp at h
  · cases hl : env.listdir_ok <;> rw [hl] at h
    · simp at h
    · cases hab : (uploadLoop env (partitionOf env) env.files).2.2 <;> rw [hab] at h <;>
        simp [move_files_to_processed] at h <;> exact h

/-- Any partition event of the trace carries this run's partition key. -/
theorem mem_partition_in_trace (env : Env) (k : String)
    (h : Event.partitionComputed k ∈ initiate_ingestion env) :
    k = partitionOf env := by
  rw [initiate_ingestion_eq] at h
  cases hc : (create_sftp_connection env.conn initState).2 <;> rw [hc] at h
  · simp at h
  · cases hl : env.listdir_ok <;> rw [hl] at h
    · simp at h
    · cases hab : (uploadLoop env (partitionOf env) env.files).2.2 <;> rw [hab] at h <;>
        simp [move_files_to_processed] at h <;>
        rcases h with h | h
      · exact h
      · have := (uploadLoop_event_kinds env (partitionOf env) env.files _ h).2.2
        simp [isPartitionComputed] at this
      · exact h
      · have := (uploadLoop_event_kinds env (partitionOf env) env.files _ h).2.2
        simp [isPartitionComputed] at this

/-- Any move event of the trace comes from the mapped move list, so it moves a
file of files_to_move with exactly the built command and the exec outcome, and
only in a run whose connection, listing and loop all went through. -/
theorem mem_move_in_trace (env : Env) (f cmd : String) (ok : Bool)
    (h : Event.moveAttempt f cmd ok ∈ initiate_ingestion env) :
    f ∈ (uploadLoop env (partitionOf env) env.files).2.1
    ∧ cmd = move_command env.ftp_directory_path env.ftp_processed_path f
    ∧ ok = env.move_ok f
    ∧ (create_sftp_connection env.conn initState).2 = true
    ∧ env.listdir_ok = true
    ∧ (uploadLoop env (partitionOf env) env.files).2.2 = false := by
  rw [initiate_ingestion_eq] at h
  cases hc : (create_sftp_connection env.conn initState).2 <;> rw [hc] at h
  · simp at h
  · cases hl : env.listdir_ok <;> rw [hl] at h
    · simp at h
    · cases hab : (uploadLoop env (partitionOf env) env.files).2.2 <;> rw [hab] at h
      · simp at h
        rcases h with h | ⟨g, hg, hge⟩
        · have := (uploadLoop_event_kinds env (partitionOf env) env.files _ h).1
          simp [isMoveAttempt] at this
        · simp [move_files_to_processed] at hge
          obtain ⟨rfl, hcmd, hok⟩ := hge
          exact ⟨hg, hcmd.symm, hok.symm, rfl, rfl, rfl⟩
      · simp at h
        have := (uploadLoop_event_kinds env (partitionOf env) env.files _ h).1
        simp [isMoveAttempt] at this

/-- Under a successful connection and listing, every upload-loop event appears
in the run trace. -/
theorem loop_event_in_trace (env : Env) (e : Event)
    (hc : (create_sftp_connection env.conn initState).2 = true)
    (hl : env.listdir_ok = true)
    (he : e ∈ (uploadLoop env (partitionOf env) env.files).1) :
    e ∈ initiate_ingestion env := by
  rw [initiate_ingestion_eq, hc, hl]
  simp only [if_true]
  exact List.mem_append_left _
    (List.mem_cons_of_mem _ (List.mem_cons_of_mem _ (List.mem_append_left _ he)))

/-! ### Claim theorems -/

/-- Claim C1 (amended): close_connections is invoked exactly once on every
exit path of initiate_ingestion — open succeeded, open partially failed,
listing failed, or uploads failed — and it completes without raising whenever
the session was fully opened; in the states where open failed the SFTP client
is still None, so executing close_connections there raises (see the
counterexample). -/
theorem C1_close_called_exactly_once (env : Env) :
    (initiate_ingestion env).countP isClose = 1
    ∧ ((create_sftp_connection env.conn initState).2 = true →
        close_connections (create_sftp_connection env.conn initState).1 = Except.ok ()
        ∧ Event.close true ∈ initiate_ingestion env) := by
  constructor
  · rw [initiate_ingestion_eq]
    cases hc : (create_sftp_connection env.conn initState).2
    · simp [isClose]
    · cases hl : env.listdir_ok
      · simp [isClose]
      · cases hab : (uploadLoop env (partitionOf env) env.files).2.2 <;>
          simp [List.countP_append, List.countP_cons, isClose,
                uploadLoop_countP_isClose,
                countP_map_moves env _ isClose (fun f => rfl)]
  · intro hc
    have hclose : close_connections (create_sftp_connection env.conn initState).1 =
        Except.ok () := by
      rw [create_sftp_success_state env.conn hc]; rfl
    refine ⟨hclose, ?_⟩
    rw [initiate_ingestion_eq]
    apply List.mem_append_right
    simp [hclose, isOk]

/-- Claim C1, refuting the as-stated safety of the close operation: in a run
where SSH comes up but the SFTP channel does not (exactly the partially failed
open the claim lists), the SFTP client is still None, so close_connections
raises AttributeError instead of completing; the run trace records the close
attempt as failed. -/
theorem C1_counterexample :
    close_connections (create_sftp_connection ⟨true, false⟩ initState).1 =
      Except.error (PyErr.err "AttributeError: NoneType object has no attribute close")
    ∧ initiate_ingestion envSftpFail = [Event.close false] := ⟨rfl, rfl⟩

/-- Claim C1 witness: the fully successful concrete run closes exactly once
and the close completes without raising. -/
theorem C1_witness :
    (initiate_ingestion envAllOk).countP isClose = 1
    ∧ (close_connections (create_sftp_connection envAllOk.conn initState).1 = Except.ok ()
       ∧ Event.close true ∈ initiate_ingestion envAllOk) :=
  ⟨(C1_close_called_exactly_once envAllOk).1,
   (C1_close_called_exactly_once envAllOk).2 (by decide)⟩

/-- Claim C2 (amended): an upload failure for one file does not abort the
remaining files — when every read stream opens, every listed file gets its
upload attempted with its own backend outcome, whatever the outcomes of the
other files; a failure opening the read stream, however, aborts the loop (see
the counterexample). -/
theorem C2_upload_failure_isolated (env : Env) (f : String)
    (hc : (create_sftp_connection env.conn initState).2 = true)
    (hl : env.listdir_ok = true)
    (hstreams : ∀ g ∈ env.files, env.stream_open_ok g = true)
    (hf : f ∈ env.files) :
    Event.uploadAttempt (partitionOf env ++ f) f (env.upload_ok f)
      ∈ initiate_ingestion env := by
  obtain ⟨h1, _⟩ := uploadLoop_all_streams_ok env (partitionOf env) env.files hstreams
  apply loop_event_in_trace env _ hc hl
  rw [h1]
  exact List.mem_map.mpr ⟨f, hf, rfl⟩

/-- Claim C2, refuted as stated: in the concrete run where the read stream of
"a.csv" fails to open, the listed file "b.bin" never gets an upload attempt —
the exception propagates out of the loop and aborts the rest of the run. -/
theorem C2_counterexample :
    "b.bin" ∈ envStreamFail.files
    ∧ initiate_ingestion envStreamFail =
        [Event.listed ["a.csv", "b.bin"],
         Event.partitionComputed "exports/year = 2024/month = 5/day = 3/hour = 13/",
         Event.streamOpenFailed "a.csv",
         Event.exceptionCaught,
         Event.close true]
    ∧ (initiate_ingestion envStreamFail).countP (isUploadOf "b.bin") = 0 :=
  ⟨by decide, by decide, by decide⟩

/-- Claim C2 witness: in the concrete run where the backend upload of "a.csv"
fails, "b.bin" still gets its upload attempted. -/
theorem C2_witness :
    Event.uploadAttempt (partitionOf envUploadFail ++ "b.bin") "b.bin"
      (envUploadFail.upload_ok "b.bin") ∈ initiate_ingestion envUploadFail :=
  C2_upload_failure_isolated envUploadFail "b.bin" (by decide) (by decide)
    (by decide) (by decide)

/-- Claim C3: the upload mode decision is strict greater-than on the
threshold; with the config.py threshold of 100 * 1024 * 1024 bytes, a byte
length of 104857601 is transferred multi-part while exactly 100 MB is
single-part. -/
theorem C3_threshold_strict (n : Nat) :
    MULTIPART_THRESHOLD = 100 * 1024 * 1024
    ∧ (n > MULTIPART_THRESHOLD →
        chooseMode n jobTransferConfig =
          UploadMode.MultiPart MULTIPART_CHUNKSIZE MAX_CUNCURRENCY USER_THREADS)
    ∧ (n ≤ MULTIPART_THRESHOLD → chooseMode n jobTransferConfig = UploadMode.SinglePart)
    ∧ chooseMode 104857601 jobTransferConfig =
        UploadMode.MultiPart MULTIPART_CHUNKSIZE MAX_CUNCURRENCY USER_THREADS
    ∧ chooseMode (100 * 1024 * 1024) jobTransferConfig = UploadMode.SinglePart := by
  refine ⟨by decide, ?_, ?_, by decide, by decide⟩
  · intro h
    simp [chooseMode, jobTransferConfig, h]
  · intro h
    simp [chooseMode, jobTransferConfig, Nat.not_lt.mpr h]

/-- Claim C4: the partition key is a pure function of the last segment of the
source directory path and the timestamp, matching exactly the spec format
with literal spaces around each equals sign and unpadded values; the path
"/data/exports" at 2024-05-03T13:00 yields
"exports/year = 2024/month = 5/day = 3/hour = 13/". -/
theorem C4_partition_format (path : String) (d : PyDateTime) :
    create_s3_partition path d = spec_computeKey path d
    ∧ create_s3_partition "/data/exports" ⟨2024, 5, 3, 13⟩ =
        "exports/year = 2024/month = 5/day = 3/hour = 13/" := by
  constructor
  · unfold create_s3_partition spec_computeKey String.intercalate
    simp only [String.intercalate.go, String.append_assoc]
    rw [append_merge "/" "year = " "/year = " _ rfl,
        append_merge "/" "month = " "/month = " _ rfl,
        append_merge "/" "day = " "/day = " _ rfl,
        append_merge "/" "hour = " "/hour = " _ rfl,
        String.append_empty]
  · decide

/-- Claim C5: the partition key is computed at most once per run — exactly
once when the session opens and the listing succeeds — every upload of the
run is stored under that one shared key concatenated with the file name, and
every recorded partition computation yields that same key. -/
theorem C5_partition_once_shared (env : Env) :
    (initiate_ingestion env).countP isPartitionComputed ≤ 1
    ∧ ((create_sftp_connection env.conn initState).2 = true → env.listdir_ok = true →
        (initiate_ingestion env).countP isPartitionComputed = 1)
    ∧ (∀ k f ok, Event.uploadAttempt k f ok ∈ initiate_ingestion env →
        k = partitionOf env ++ f)
    ∧ (∀ k, Event.partitionComputed k ∈ initiate_ingestion env → k = partitionOf env) := by
  have hcount : (initiate_ingestion env).countP isPartitionComputed =
      (if (create_sftp_connection env.conn initState).2 && env.listdir_ok then 1 else 0) := by
    rw [initiate_ingestion_eq]
    cases hc : (create_sftp_connection env.conn initState).2
    · simp [isPartitionComputed]
    · cases hl : env.listdir_ok
      · simp [isPartitionComputed]
      · cases hab : (uploadLoop env (partitionOf env) env.files).2.2 <;>
          simp [List.countP_append, List.countP_cons, isPartitionComputed,
                uploadLoop_countP_isPartition,
                countP_map_moves env _ isPartitionComputed (fun f => rfl)]
  refine ⟨?_, ?_, ?_, ?_⟩
  · rw [hcount]; split <;> simp
  · intro hc hl
    rw [hcount, hc, hl]; rfl
  · intro k f ok h
    exact (uploadLoop_upload_mem env _ env.files k f ok
      (mem_upload_in_trace env k f ok h)).1
  · intro k h
    exact mem_partition_in_trace env k h

/-- Claim C5 witness: the fully successful concrete run computes the
partition key exactly once. -/
theorem C5_witness :
    (initiate_ingestion envAllOk).countP isPartitionComputed = 1 :=
  (C5_partition_once_shared envAllOk).2.1 (by decide) (by decide)

/-- Claim C6: a move event for a file exists only when the upload of that
file reported success — a file whose upload failed is never moved in that
run. -/
theorem C6_moved_only_if_upload_succeeded (env : Env) (f cmd : String) (ok : Bool)
    (h : Event.moveAttempt f cmd ok ∈ initiate_ingestion env) :
    Event.uploadAttempt (partitionOf env ++ f) f true ∈ initiate_ingestion env := by
  obtain ⟨hm, _, _, hc, hl, _⟩ := mem_move_in_trace env f cmd ok h
  exact loop_event_in_trace env _ hc hl (uploadLoop_move_mem env _ env.files f hm)

/-- Claim C6 witness: in the fully successful concrete run, the recorded move
of "a.csv" is matched by a successful upload event of "a.csv". -/
theorem C6_witness :
    Event.uploadAttempt (partitionOf envAllOk ++ "a.csv") "a.csv" true
      ∈ initiate_ingestion envAllOk :=
  C6_moved_only_if_upload_succeeded envAllOk "a.csv"
    "mv /data/exports/a.csv /data/processed/a.csv" true (by decide)

/-- Claim C7: when the run reaches the move phase, the trace is exactly the
listing, the partition computation and all upload attempts, followed by the
moves of the accumulated move list and the close — so every move runs after
all uploads were attempted; no move event occurs during the upload phase; and
every file of the move list has its move attempted with its own outcome,
regardless of the failures of the other moves. -/
theorem C7_moves_after_uploads (env : Env)
    (hc : (create_sftp_connection env.conn initState).2 = true)
    (hl : env.listdir_ok = true)
    (hab : (uploadLoop env (partitionOf env) env.files).2.2 = false) :
    initiate_ingestion env =
      (Event.listed env.files :: Event.partitionComputed (partitionOf env) ::
        (uploadLoop env (partitionOf env) env.files).1)
      ++ ((uploadLoop env (partitionOf env) env.files).2.1.map (move_files_to_processed env)
          ++ [Event.close true])
    ∧ (∀ e ∈ (uploadLoop env (partitionOf env) env.files).1, isMoveAttempt e = false)
    ∧ (∀ g ∈ (uploadLoop env (partitionOf env) env.files).2.1,
        Event.moveAttempt g (move_command env.ftp_directory_path env.ftp_processed_path g)
          (env.move_ok g) ∈ initiate_ingestion env) := by
  have hclose : isOk (close_connections (create_sftp_connection env.conn initState).1) =
      true := by
    rw [create_sftp_success_state env.conn hc]; rfl
  refine ⟨?_, ?_, ?_⟩
  · rw [initiate_ingestion_eq, hc, hl, hab, hclose]
    simp
  · intro e he
    exact (uploadLoop_event_kinds env _ env.files e he).1
  · intro g hg
    rw [initiate_ingestion_eq, hc, hl, hab]
    apply List.mem_append_left
    apply List.mem_cons_of_mem
    apply List.mem_cons_of_mem
    apply List.mem_append_right
    exact List.mem_map.mpr ⟨g, hg, rfl⟩

/-- Claim C7 witness: in the concrete run where the move of "a.csv" fails,
the move of the remaining file "b.bin" is still attempted. -/
theorem C7_witness :
    Event.moveAttempt "b.bin"
      (move_command envMoveFail.ftp_directory_path envMoveFail.ftp_processed_path "b.bin")
      (envMoveFail.move_ok "b.bin") ∈ initiate_ingestion envMoveFail :=
  (C7_moves_after_uploads envMoveFail (by decide) (by decide) (by decide)).2.2
    "b.bin" (by decide)

/-- Claim C8: a run whose session open fails touches no file — the trace
holds no listing, no partition computation, no upload and no move, only the
close step (which, the SFTP client being None, raises). -/
theorem C8_nothing_touched (env : Env)
    (h : (create_sftp_connection env.conn initState).2 = false) :
    initiate_ingestion env = [Event.close false] := by
  rw [initiate_ingestion_eq, h,
      close_connections_of_sftp_none _ (create_sftp_failure_state env.conn h)]
  simp [isOk]

/-- Claim C8 witness: the concrete run whose SSH connection fails produces
only the close event. -/
theorem C8_witness : initiate_ingestion envOpenFail = [Event.close false] :=
  C8_nothing_touched envOpenFail (by decide)

/-- Claim C9: every move event of any run carries exactly the shell command
"mv " + pendingDirPath + "/" + fileName + " " + processedDirPath + fileName,
with no separator inserted between the processed directory path and the file
name. -/
theorem C9_move_command_exact (env : Env) (f cmd : String) (ok : Bool)
    (h : Event.moveAttempt f cmd ok ∈ initiate_ingestion env) :
    cmd = "mv " ++ env.ftp_directory_path ++ "/" ++ f ++ " " ++
      env.ftp_processed_path ++ f := by
  obtain ⟨_, hcmd, _⟩ := mem_move_in_trace env f cmd ok h
  rw [hcmd]
  simp [move_command, String.append_assoc]

/-- Claim C9 witness: the move command recorded for "b.bin" in the fully
successful concrete run is exactly the concatenated string. -/
theorem C9_witness :
    "mv /data/exports/b.bin /data/processed/b.bin" =
      "mv " ++ envAllOk.ftp_directory_path ++ "/" ++ "b.bin" ++ " " ++
        envAllOk.ftp_processed_path ++ "b.bin" :=
  C9_move_command_exact envAllOk "b.bin"
    "mv /data/exports/b.bin /data/processed/b.bin" true (by decide)

/-- Claim C10: the per-file upload operation is total over its error channel:
it returns True exactly when the backend transfer completed without raising
and False exactly when the backend raised, never propagating the exception. -/
theorem C10_upload_total (r : Except PyErr Unit) :
    (s3_upload_file_multipart r = true ↔ r = Except.ok ())
    ∧ (s3_upload_file_multipart r = false ↔ ∃ e, r = Except.error e) := by
  cases r with
  | ok u => cases u; simp [s3_upload_file_multipart]
  | error e => simp [s3_upload_file_multipart]

end FTP
